import Mathlib

/-!
Verification of the TrainingGround explanation service.

Shallow embedding of the request-serving pipeline of
`backend/python-generator/src/explanation_service`: the fingerprint cache
(`services/cache.py`), the orchestrator (`services/explanations.py`), the
generation client's failure modes (`clients/yandex_gpt.py`), the embedding
sync worker (`workers/embedding_worker.py`), the resilience middleware
(`middleware.py`), and the retrieval pipeline's rule-reference selection
(`services/rag.py`).

External collaborators (Redis, MongoDB, Qdrant, the embedding model, the
LLM endpoint) are modelled as explicit stores and oracle functions passed
to the embedded operations; wall-clock times are naturals, since the code
only adds and compares them.
-/

namespace ExplanationService

/-- Provenance tag of a response: the `source` literal of
`ExplanationResponse` in `models/dto.py` (one of cache, yandexgpt,
fallback). -/
inductive Source where
  | cache
  | yandexgpt
  | fallback
deriving Repr, DecidableEq

/-- `ExplanationRequest` from `models/dto.py`: the incoming payload.
Optional pydantic fields are `Option`, defaults mirror the `Field`
defaults. -/
structure ExplanationRequest where
  task_id : String
  topic_id : Option String := none
  task_type : Option String := none
  user_errors : List String := []
  language_level : Option String := none
  language : String := "ru"
  request_id : Option String := none
deriving Repr, DecidableEq

/-- `ExplanationResponse` from `models/dto.py`. `took_ms` is a
non-negative int; `generated_at` (a `datetime`, default `utcnow`) is a
timestamp supplied by the caller as a natural. -/
structure ExplanationResponse where
  explanation : String
  rule_refs : List String := []
  source : Source
  took_ms : Nat := 0
  generated_at : Nat := 0
deriving Repr, DecidableEq

/-- The field subset serialized by `ExplanationCache._fingerprint`
(cache.py lines 20-35). The code takes SHA-256 of the sorted-keys JSON
dump of exactly these six fields; the dump is injective on this record
and the hash is treated as collision-free, so the digest is modelled by
the record itself. -/
structure Fingerprint where
  task_id : String
  topic_id : Option String
  task_type : Option String
  user_errors : List String
  language_level : Option String
  language : String
deriving Repr, DecidableEq

/-- `ExplanationCache._fingerprint` (cache.py lines 20-35). -/
def fingerprint (p : ExplanationRequest) : Fingerprint :=
  { task_id := p.task_id
    topic_id := p.topic_id
    task_type := p.task_type
    user_errors := p.user_errors
    language_level := p.language_level
    language := p.language }

/-- `ExplanationCache._key` (cache.py lines 37-38). -/
def cacheKey (task_id : String) : String :=
  "explanation:cache:" ++ task_id

/-- A Redis value found under an explanation cache key. `doc` is the
well-formed JSON document written by `set` (a fingerprint paired with a
serialized response; JSON round-tripping of the response document is
injective and is modelled as the identity). `nonJson` is any string that
`json.loads` rejects, including the empty string. -/
inductive StoredValue where
  | doc (fp : Fingerprint) (resp : ExplanationResponse)
  | nonJson (s : String)
deriving Repr, DecidableEq

/-- The Redis keyspace visible to the explanation cache. -/
def CacheStore : Type := String → Option StoredValue

/-- `ExplanationCache.get` (cache.py lines 40-58). A missing key or an
empty string is falsy in Python (`if not raw: return None`); a value that
fails `json.loads` is synthesized into a response whose explanation is the
raw value (its `generated_at` defaults to the current time `now`); a
parsed document is returned only when its stored fingerprint matches the
fingerprint recomputed from the request. -/
def cacheGet (store : CacheStore) (now : Nat) (p : ExplanationRequest) :
    Option ExplanationResponse :=
  match store (cacheKey p.task_id) with
  | none => none
  | some (StoredValue.nonJson s) =>
      if s = "" then none
      else some { explanation := s, rule_refs := [], source := Source.cache,
                  took_ms := 0, generated_at := now }
  | some (StoredValue.doc fp resp) =>
      if fp = fingerprint p then some resp else none

/-- `ExplanationCache.set` (cache.py lines 60-72): `setex` of the document
holding the request fingerprint and the serialized response. The TTL only
bounds the entry's lifetime and is not part of the stored value. -/
def cacheSet (store : CacheStore) (p : ExplanationRequest)
    (resp : ExplanationResponse) : CacheStore :=
  fun k =>
    if k = cacheKey p.task_id then some (StoredValue.doc (fingerprint p) resp)
    else store k

/-- Claim C1: cache round-trip. For every request and response, `set`
followed by `get` on the resulting store returns exactly the stored
response. -/
theorem cache_set_then_get_returns_response (store : CacheStore) (now : Nat)
    (p : ExplanationRequest) (resp : ExplanationResponse) :
    cacheGet (cacheSet store p resp) now p = some resp := by
  simp [cacheGet, cacheSet]

/-- Claim C2: fingerprint sensitivity. Two requests with the same task id
but different `user_errors` lists (in particular, differing only in
order) have different fingerprints, so `get` with the second request after
`set` with the first returns `none`. -/
theorem cache_get_misses_on_differing_user_errors (store : CacheStore)
    (now : Nat) (p1 p2 : ExplanationRequest) (resp : ExplanationResponse)
    (htask : p1.task_id = p2.task_id)
    (herr : p1.user_errors ≠ p2.user_errors) :
    cacheGet (cacheSet store p1 resp) now p2 = none := by
  have hkey : cacheKey p2.task_id = cacheKey p1.task_id := by
    rw [htask]
  have hfp : fingerprint p1 ≠ fingerprint p2 := by
    intro h
    exact herr (congrArg Fingerprint.user_errors h)
  simp [cacheGet, cacheSet, hkey, hfp]

/-- Witness for C2 at concrete requests sharing a task id whose error
lists differ only in element order. -/
theorem cache_get_misses_on_differing_user_errors_witness :
    cacheGet
      (cacheSet (fun _ => none)
        { task_id := "task-1", user_errors := ["a", "b"] }
        { explanation := "x", source := Source.fallback }) 0
      { task_id := "task-1", user_errors := ["b", "a"] } = none :=
  cache_get_misses_on_differing_user_errors (fun _ => none) 0
    { task_id := "task-1", user_errors := ["a", "b"] }
    { task_id := "task-1", user_errors := ["b", "a"] }
    { explanation := "x", source := Source.fallback }
    rfl (by decide)

/-- Counterexample to claim C10 as stated: the empty string is not valid
JSON, yet `get` returns `none` for it (`if not raw` fires before JSON
decoding), rather than a synthesized response. -/
theorem cache_get_nonjson_counterexample :
    ¬ (∀ (store : CacheStore) (now : Nat) (p : ExplanationRequest)
          (s : String),
        store (cacheKey p.task_id) = some (StoredValue.nonJson s) →
        cacheGet store now p =
          some { explanation := s, rule_refs := [], source := Source.cache,
                 took_ms := 0, generated_at := now }) := by
  intro h
  have h2 := h
    (fun k => if k = cacheKey "t1" then some (StoredValue.nonJson "") else none)
    0 { task_id := "t1" } "" (by simp)
  simp [cacheGet] at h2

/-- Claim C10 (amended): a nonempty stored value that is not valid JSON is
not treated as absent and no fingerprint check happens; `get` synthesizes
a response whose explanation is the raw value, with empty rule refs,
source cache and zero elapsed time. (The empty stored value, also invalid
JSON, is instead treated as absent by the falsiness guard.) -/
theorem cache_get_nonjson_synthesizes (store : CacheStore) (now : Nat)
    (p : ExplanationRequest) (s : String)
    (hstore : store (cacheKey p.task_id) = some (StoredValue.nonJson s))
    (hne : s ≠ "") :
    cacheGet store now p =
      some { explanation := s, rule_refs := [], source := Source.cache,
             took_ms := 0, generated_at := now } := by
  unfold cacheGet
  rw [hstore]
  simp [hne]

/-- Witness for the amended C10 at a concrete store holding a nonempty
non-JSON value. -/
theorem cache_get_nonjson_synthesizes_witness :
    cacheGet
      (fun k =>
        if k = cacheKey "t1" then some (StoredValue.nonJson "oops") else none)
      3 { task_id := "t1" } =
      some { explanation := "oops", rule_refs := [], source := Source.cache,
             took_ms := 0, generated_at := 3 } :=
  cache_get_nonjson_synthesizes
    (fun k =>
      if k = cacheKey "t1" then some (StoredValue.nonJson "oops") else none)
    3 { task_id := "t1" } "oops" (by simp) (by decide)

/-- A `tasks` collection document, restricted to the fields read by the
orchestrator and the fallback path: `template_id` (possibly absent). -/
structure TaskDoc where
  template_id : Option String := none
deriving Repr, DecidableEq

/-- A `templates` collection document, restricted to the fields read by
rule-reference derivation and retrieval: `rule_ids` (default empty). -/
structure TemplateDoc where
  rule_ids : List String := []
deriving Repr, DecidableEq

/-- `ExplanationService._derive_rule_refs` (explanations.py lines
112-122): walk task, then its template (a falsy, i.e. absent or empty,
template id stops the walk), then the template's rule id list. -/
def deriveRuleRefs (tasks : String → Option TaskDoc)
    (templates : String → Option TemplateDoc) (task_id : String) :
    List String :=
  match tasks task_id with
  | none => []
  | some task =>
    match task.template_id with
    | none => []
    | some tid =>
      if tid = "" then []
      else
        match templates tid with
        | none => []
        | some tpl => tpl.rule_ids

/-- The failure modes `YandexGPTClient.generate` can raise
(yandex_gpt.py lines 49-85): an httpx timeout from the POST at line 72, a
non-timeout httpx transport error (connect, read, write or protocol
failure) from the same POST, a non-2xx status from `raise_for_status` at
line 73, a `json.JSONDecodeError` from `response.json()` at line 75 when
a 2xx body is not JSON, a `RuntimeError` for a response with no
alternatives, a `RuntimeError` for a missing or empty text field, and a
`RuntimeError` for unconfigured credentials (raised before any network
call). -/
inductive GenFailure where
  | timeout
  | transportError
  | httpStatusError
  | jsonDecodeError
  | noAlternatives
  | missingText
  | unconfigured
deriving Repr, DecidableEq

/-- Python exception classes relevant to the orchestrator's handler:
`transportError` stands for the non-timeout `httpx.TransportError`
subclasses (`ConnectError`, `ReadError`, ...), which are not
`httpx.TimeoutException` subclasses. -/
inductive ExcClass where
  | timeoutException
  | transportError
  | httpStatusError
  | runtimeError
  | valueError
  | jsonDecodeError
deriving Repr, DecidableEq

/-- The exception class each generation failure is raised as
(yandex_gpt.py): timeouts are `httpx.TimeoutException` subclasses, other
transport failures of the POST are non-timeout `httpx.TransportError`
subclasses, status failures are `httpx.HTTPStatusError`, a non-JSON 2xx
body raises `json.JSONDecodeError`, and the remaining three are
`RuntimeError`. -/
def GenFailure.excClass : GenFailure → ExcClass
  | GenFailure.timeout => ExcClass.timeoutException
  | GenFailure.transportError => ExcClass.transportError
  | GenFailure.httpStatusError => ExcClass.httpStatusError
  | GenFailure.jsonDecodeError => ExcClass.jsonDecodeError
  | GenFailure.noAlternatives => ExcClass.runtimeError
  | GenFailure.missingText => ExcClass.runtimeError
  | GenFailure.unconfigured => ExcClass.runtimeError

/-- The orchestrator's `except` clause around the generation call
(explanations.py line 87) catches exactly `httpx.TimeoutException`,
`httpx.HTTPStatusError` and `RuntimeError`; non-timeout transport errors
and JSON decode errors are not in the tuple. -/
def handlerCatches : ExcClass → Bool
  | ExcClass.timeoutException => true
  | ExcClass.transportError => false
  | ExcClass.httpStatusError => true
  | ExcClass.runtimeError => true
  | ExcClass.valueError => false
  | ExcClass.jsonDecodeError => false

/-- The collaborators and configuration `handle_request` consults for one
request: the caching switch, the resolved feature flag, presence of a
configured generation client, the outcome of `rag.build_prompt` (a
`ValueError` or a prompt paired with rule refs), the generation client's
behaviour per prompt, the fallback text for this task, the mongo task and
template collections, the measured elapsed milliseconds, and the current
timestamp. -/
structure OrchestratorEnv where
  cache_enabled : Bool
  useLLM : Bool
  hasClient : Bool
  promptResult : Except Unit (String × List String)
  generate : String → Except GenFailure String
  fallbackText : String
  tasks : String → Option TaskDoc
  templates : String → Option TemplateDoc
  elapsed : Nat
  now : Nat

/-- The observable outcome of one `handle_request` run: the returned
response, the cache store afterwards, whether the generation client was
invoked, and the reason class of the generation-error counter increment,
if any. -/
structure HandleResult where
  response : ExplanationResponse
  store : CacheStore
  generationInvoked : Bool
  errorReason : Option ExcClass

/-- The fallback completion of `handle_request` (explanations.py lines
93-108): substitute the static fallback text, derive rule refs when none
were produced, mark the source as fallback, and write the cache when
caching is enabled. -/
def fallbackFinish (env : OrchestratorEnv) (store : CacheStore)
    (p : ExplanationRequest) (rule_refs : List String) (invoked : Bool)
    (reason : Option ExcClass) : HandleResult :=
  let refs :=
    if rule_refs = [] then deriveRuleRefs env.tasks env.templates p.task_id
    else rule_refs
  let response : ExplanationResponse :=
    { explanation := env.fallbackText, rule_refs := refs,
      source := Source.fallback, took_ms := env.elapsed,
      generated_at := env.now }
  { response := response
    store := if env.cache_enabled then cacheSet store p response else store
    generationInvoked := invoked
    errorReason := reason }

/-- The generated-text completion of `handle_request` (explanations.py
lines 99-108): keep the retriever's rule refs as they are, mark source
yandexgpt, and write the cache when caching is enabled. -/
def generatedFinish (env : OrchestratorEnv) (store : CacheStore)
    (p : ExplanationRequest) (text : String) (rule_refs : List String) :
    HandleResult :=
  let response : ExplanationResponse :=
    { explanation := text, rule_refs := rule_refs,
      source := Source.yandexgpt, took_ms := env.elapsed,
      generated_at := env.now }
  { response := response
    store := if env.cache_enabled then cacheSet store p response else store
    generationInvoked := true
    errorReason := none }

/-- `ExplanationService.handle_request` (explanations.py lines 53-110).
Cache lookup when enabled (a hit returns immediately with no write); a
`ValueError` from prompt building is answered with the static fallback,
empty rule refs and no cache write; otherwise the LLM is attempted only
when the flag resolved true and a client exists; a caught generation
failure increments the error counter by exception class and degrades to
the fallback, an uncaught one propagates (`Except.error`); a falsy
generated text also degrades to the fallback. -/
def handleRequest (env : OrchestratorEnv) (store : CacheStore)
    (p : ExplanationRequest) : Except GenFailure HandleResult :=
  let hit : Option ExplanationResponse :=
    if env.cache_enabled then cacheGet store env.now p else none
  match hit with
  | some cached =>
      Except.ok
        { response := cached, store := store, generationInvoked := false,
          errorReason := none }
  | none =>
    match env.promptResult with
    | Except.error _ =>
        Except.ok
          { response :=
              { explanation := env.fallbackText, rule_refs := [],
                source := Source.fallback, took_ms := env.elapsed,
                generated_at := env.now }
            store := store
            generationInvoked := false
            errorReason := none }
    | Except.ok pr =>
      let attempt : Option (Except GenFailure String) :=
        if env.useLLM && env.hasClient then some (env.generate pr.fst)
        else none
      match attempt with
      | some (Except.error e) =>
          if handlerCatches e.excClass then
            Except.ok (fallbackFinish env store p pr.snd true (some e.excClass))
          else
            Except.error e
      | some (Except.ok text) =>
          if text = "" then
            Except.ok (fallbackFinish env store p pr.snd true none)
          else
            Except.ok (generatedFinish env store p text pr.snd)
      | none =>
          Except.ok (fallbackFinish env store p pr.snd false none)

/-- Counterexample to claim C3 as stated: with caching enabled, the
fallback response produced after a prompt-building failure is returned
without any cache write — the store still has no entry under the
request's key. -/
theorem prompt_failure_fallback_not_cached_counterexample :
    ¬ (∀ (env : OrchestratorEnv) (store : CacheStore)
          (p : ExplanationRequest) (r : HandleResult),
        env.cache_enabled = true →
        handleRequest env store p = Except.ok r →
        r.store (cacheKey p.task_id) =
          some (StoredValue.doc (fingerprint p) r.response)) := by
  intro h
  have h2 := h
    { cache_enabled := true, useLLM := false, hasClient := false,
      promptResult := Except.error (), generate := fun _ => Except.ok "g",
      fallbackText := "fb", tasks := fun _ => none,
      templates := fun _ => none, elapsed := 7, now := 5 }
    (fun _ => none) { task_id := "t1" }
    { response :=
        { explanation := "fb", rule_refs := [], source := Source.fallback,
          took_ms := 7, generated_at := 5 }
      store := fun _ => none
      generationInvoked := false
      errorReason := none }
    rfl rfl
  simp at h2

/-- Claim C3 (amended): with caching enabled and a cache miss, every
response produced after a successful prompt build is written to the cache
under the exact request fingerprint before being returned; the fallback
response produced after a prompt-building failure is returned with the
store unchanged (no cache write). -/
theorem handle_request_cache_write (env : OrchestratorEnv)
    (store : CacheStore) (p : ExplanationRequest) (r : HandleResult)
    (hen : env.cache_enabled = true)
    (hmiss : cacheGet store env.now p = none)
    (hr : handleRequest env store p = Except.ok r) :
    ((∃ pr, env.promptResult = Except.ok pr) →
      r.store (cacheKey p.task_id) =
        some (StoredValue.doc (fingerprint p) r.response)) ∧
    (env.promptResult = Except.error () →
      r.store = store ∧ r.response.source = Source.fallback) := by
  unfold handleRequest at hr
  rw [hen] at hr
  simp only [if_true] at hr
  rw [hmiss] at hr
  cases hp : env.promptResult with
  | error u =>
    rw [hp] at hr
    try simp only [] at hr
    cases hr
    constructor
    · rintro ⟨pr, hpr⟩
      exact absurd hpr (by simp)
    · intro _
      exact ⟨rfl, rfl⟩
  | ok pr =>
    rw [hp] at hr
    try simp only [] at hr
    constructor
    · intro _
      by_cases hgate : env.useLLM && env.hasClient
      · rw [if_pos hgate] at hr
        try simp only [] at hr
        cases hgen : env.generate pr.fst with
        | error e =>
          rw [hgen] at hr
          try simp only [] at hr
          cases hc : handlerCatches e.excClass with
          | false =>
            rw [hc] at hr
            simp at hr
          | true =>
            rw [if_pos hc] at hr
            cases hr
            simp [fallbackFinish, hen, cacheSet]
        | ok text =>
          rw [hgen] at hr
          try simp only [] at hr
          by_cases ht : text = ""
          · rw [if_pos ht] at hr
            cases hr
            simp [fallbackFinish, hen, cacheSet]
          · rw [if_neg ht] at hr
            cases hr
            simp [generatedFinish, hen, cacheSet]
      · rw [if_neg hgate] at hr
        try simp only [] at hr
        cases hr
        simp [fallbackFinish, hen, cacheSet]
    · intro hcontr
      exact absurd hcontr (by simp)

/-- Witness for the amended C3: concrete run with caching enabled, a
prompt that builds, the LLM gate closed; the returned fallback response is
stored under the request fingerprint. -/
theorem handle_request_cache_write_witness :
    (handleRequest
        { cache_enabled := true, useLLM := false, hasClient := false,
          promptResult := Except.ok ("prompt", ["r1"]),
          generate := fun _ => Except.ok "g", fallbackText := "fb",
          tasks := fun _ => none, templates := fun _ => none,
          elapsed := 7, now := 5 }
        (fun _ => none) { task_id := "t1" } =
      Except.ok
        { response :=
            { explanation := "fb", rule_refs := ["r1"],
              source := Source.fallback, took_ms := 7, generated_at := 5 }
          store :=
            cacheSet (fun _ => none) { task_id := "t1" }
              { explanation := "fb", rule_refs := ["r1"],
                source := Source.fallback, took_ms := 7, generated_at := 5 }
          generationInvoked := false
          errorReason := none }) ∧
    (cacheSet (fun _ => none) { task_id := "t1" }
        { explanation := "fb", rule_refs := ["r1"],
          source := Source.fallback, took_ms := 7, generated_at := 5 })
      (cacheKey "t1") =
      some (StoredValue.doc (fingerprint { task_id := "t1" })
        { explanation := "fb", rule_refs := ["r1"],
          source := Source.fallback, took_ms := 7, generated_at := 5 }) := by
  constructor
  · rfl
  · exact
      (handle_request_cache_write
        { cache_enabled := true, useLLM := false, hasClient := false,
          promptResult := Except.ok ("prompt", ["r1"]),
          generate := fun _ => Except.ok "g", fallbackText := "fb",
          tasks := fun _ => none, templates := fun _ => none,
          elapsed := 7, now := 5 }
        (fun _ => none) { task_id := "t1" }
        { response :=
            { explanation := "fb", rule_refs := ["r1"],
              source := Source.fallback, took_ms := 7, generated_at := 5 }
          store :=
            cacheSet (fun _ => none) { task_id := "t1" }
              { explanation := "fb", rule_refs := ["r1"],
                source := Source.fallback, took_ms := 7, generated_at := 5 }
          generationInvoked := false
          errorReason := none }
        rfl rfl rfl).left ⟨("prompt", ["r1"]), rfl⟩

/-- Claim C4: fallback totality. On a cache miss with a successful prompt
build, if the flag resolved false or no generation client is configured,
the orchestrator never invokes the client and returns a response with
provenance fallback. -/
theorem handle_request_fallback_totality (env : OrchestratorEnv)
    (store : CacheStore) (p : ExplanationRequest)
    (hmiss : env.cache_enabled = true → cacheGet store env.now p = none)
    (hprompt : ∃ pr, env.promptResult = Except.ok pr)
    (hoff : env.useLLM = false ∨ env.hasClient = false) :
    ∃ r, handleRequest env store p = Except.ok r ∧
      r.generationInvoked = false ∧ r.response.source = Source.fallback := by
  obtain ⟨pr, hp⟩ := hprompt
  have hgate : (env.useLLM && env.hasClient) = false := by
    cases hoff with
    | inl h => simp [h]
    | inr h => simp [h]
  refine ⟨fallbackFinish env store p pr.snd false none, ?_, rfl, rfl⟩
  rcases hen : env.cache_enabled with _ | _
  · simp [handleRequest, hen, hp, hgate]
  · simp [handleRequest, hen, hp, hgate, hmiss hen]

/-- Witness for C4: a concrete run with caching disabled, a built prompt
and no configured client returns an uninvoked fallback response. -/
theorem handle_request_fallback_totality_witness :
    ∃ r,
      handleRequest
        { cache_enabled := false, useLLM := true, hasClient := false,
          promptResult := Except.ok ("prompt", []),
          generate := fun _ => Except.ok "g", fallbackText := "fb",
          tasks := fun _ => none, templates := fun _ => none,
          elapsed := 2, now := 1 }
        (fun _ => none) { task_id := "t1" } = Except.ok r ∧
      r.generationInvoked = false ∧ r.response.source = Source.fallback :=
  handle_request_fallback_totality
    { cache_enabled := false, useLLM := true, hasClient := false,
      promptResult := Except.ok ("prompt", []),
      generate := fun _ => Except.ok "g", fallbackText := "fb",
      tasks := fun _ => none, templates := fun _ => none,
      elapsed := 2, now := 1 }
    (fun _ => none) { task_id := "t1" }
    (fun h => by cases h) ⟨("prompt", []), rfl⟩ (Or.inr rfl)

/-- Counterexample to claim C5 as stated: a non-timeout transport error
raised by the POST (for example `httpx.ConnectError`) is not in the
orchestrator's except tuple, so on the LLM path `handleRequest`
propagates it to the caller instead of producing a fallback response. -/
theorem generation_failure_propagates_counterexample :
    ¬ (∀ (env : OrchestratorEnv) (store : CacheStore)
          (p : ExplanationRequest) (pr : String × List String)
          (e : GenFailure),
        (env.cache_enabled = true → cacheGet store env.now p = none) →
        env.promptResult = Except.ok pr →
        env.useLLM = true → env.hasClient = true →
        env.generate pr.fst = Except.error e →
        ∃ r, handleRequest env store p = Except.ok r) := by
  intro h
  obtain ⟨r, hr⟩ := h
    { cache_enabled := true, useLLM := true, hasClient := true,
      promptResult := Except.ok ("prompt", ["r1"]),
      generate := fun _ => Except.error GenFailure.transportError,
      fallbackText := "fb", tasks := fun _ => none,
      templates := fun _ => none, elapsed := 2, now := 1 }
    (fun _ => none) { task_id := "t1" } ("prompt", ["r1"])
    GenFailure.transportError (fun _ => rfl) rfl rfl rfl rfl
  have hrun :
      handleRequest
        { cache_enabled := true, useLLM := true, hasClient := true,
          promptResult := Except.ok ("prompt", ["r1"]),
          generate := fun _ => Except.error GenFailure.transportError,
          fallbackText := "fb", tasks := fun _ => none,
          templates := fun _ => none, elapsed := 2, now := 1 }
        (fun _ => none) { task_id := "t1" } =
        Except.error GenFailure.transportError := rfl
  rw [hrun] at hr
  exact Except.noConfusion hr

/-- Claim C5 (amended): on the LLM path, the generation failures in the
orchestrator's except tuple — timeout, HTTP status error, malformed
response (no alternatives or missing text) and unconfigured credentials —
are caught, counted under their exception class, and answered with a
fallback-sourced response; a non-timeout transport error from the POST or
a JSON decode failure of the response body is not caught and propagates
to the caller as an exception. -/
theorem handle_request_generation_failure_surface (env : OrchestratorEnv)
    (store : CacheStore) (p : ExplanationRequest)
    (pr : String × List String) (e : GenFailure)
    (hmiss : env.cache_enabled = true → cacheGet store env.now p = none)
    (hp : env.promptResult = Except.ok pr)
    (hllm : env.useLLM = true) (hcl : env.hasClient = true)
    (hgen : env.generate pr.fst = Except.error e) :
    ((e = GenFailure.timeout ∨ e = GenFailure.httpStatusError ∨
        e = GenFailure.noAlternatives ∨ e = GenFailure.missingText ∨
        e = GenFailure.unconfigured) →
      ∃ r, handleRequest env store p = Except.ok r ∧
        r.errorReason = some e.excClass ∧
        r.response.source = Source.fallback ∧
        r.generationInvoked = true) ∧
    ((e = GenFailure.transportError ∨ e = GenFailure.jsonDecodeError) →
      handleRequest env store p = Except.error e) := by
  have hgate : (env.useLLM && env.hasClient) = true := by
    rw [hllm, hcl]
    rfl
  constructor
  · intro hcaught
    have hc : handlerCatches e.excClass = true := by
      rcases hcaught with h | h | h | h | h <;> subst h <;> rfl
    refine ⟨fallbackFinish env store p pr.snd true (some e.excClass),
      ?_, rfl, rfl, rfl⟩
    rcases hen : env.cache_enabled with _ | _
    · simp [handleRequest, hen, hp, hgate, hgen, hc]
    · simp [handleRequest, hen, hp, hgate, hgen, hc, hmiss hen]
  · intro hprop
    have hc : handlerCatches e.excClass = false := by
      rcases hprop with h | h <;> subst h <;> rfl
    rcases hen : env.cache_enabled with _ | _
    · simp [handleRequest, hen, hp, hgate, hgen, hc]
    · simp [handleRequest, hen, hp, hgate, hgen, hc, hmiss hen]

/-- Witness for the amended C5: with the same store and request, a client
raising an HTTP status failure is absorbed into a counted fallback, while
a client raising a transport error propagates it. -/
theorem handle_request_generation_failure_surface_witness :
    (∃ r,
      handleRequest
        { cache_enabled := true, useLLM := true, hasClient := true,
          promptResult := Except.ok ("prompt", ["r1"]),
          generate := fun _ => Except.error GenFailure.httpStatusError,
          fallbackText := "fb", tasks := fun _ => none,
          templates := fun _ => none, elapsed := 2, now := 1 }
        (fun _ => none) { task_id := "t1" } = Except.ok r ∧
      r.errorReason = some (GenFailure.httpStatusError).excClass ∧
      r.response.source = Source.fallback ∧
      r.generationInvoked = true) ∧
    handleRequest
        { cache_enabled := true, useLLM := true, hasClient := true,
          promptResult := Except.ok ("prompt", ["r1"]),
          generate := fun _ => Except.error GenFailure.transportError,
          fallbackText := "fb", tasks := fun _ => none,
          templates := fun _ => none, elapsed := 2, now := 1 }
        (fun _ => none) { task_id := "t1" } =
      Except.error GenFailure.transportError :=
  ⟨(handle_request_generation_failure_surface
      { cache_enabled := true, useLLM := true, hasClient := true,
        promptResult := Except.ok ("prompt", ["r1"]),
        generate := fun _ => Except.error GenFailure.httpStatusError,
        fallbackText := "fb", tasks := fun _ => none,
        templates := fun _ => none, elapsed := 2, now := 1 }
      (fun _ => none) { task_id := "t1" } ("prompt", ["r1"])
      GenFailure.httpStatusError (fun _ => rfl) rfl rfl rfl rfl).left
      (Or.inr (Or.inl rfl)),
    (handle_request_generation_failure_surface
      { cache_enabled := true, useLLM := true, hasClient := true,
        promptResult := Except.ok ("prompt", ["r1"]),
        generate := fun _ => Except.error GenFailure.transportError,
        fallbackText := "fb", tasks := fun _ => none,
        templates := fun _ => none, elapsed := 2, now := 1 }
      (fun _ => none) { task_id := "t1" } ("prompt", ["r1"])
      GenFailure.transportError (fun _ => rfl) rfl rfl rfl rfl).right
      (Or.inl rfl)⟩

/-- A `rules` collection document, restricted to the fields the worker
and the retriever read: name, description, slug, the nested
`metadata.difficulty`, and status. Absent keys are `none`. -/
structure RuleDoc where
  name : Option String := none
  description : Option String := none
  slug : Option String := none
  difficulty : Option String := none
  status : Option String := none
deriving Repr, DecidableEq

/-- The payload of a Qdrant point written by `EmbeddingWorker._process`
(embedding_worker.py lines 105-115). -/
structure PointPayload where
  rule_id : String
  name : Option String
  description : Option String
  slug : Option String
  difficulty : Option String
deriving Repr, DecidableEq

/-- A Qdrant point: an embedding vector (of abstract type `V`, since the
claims never inspect vector values) and its payload. -/
structure Point (V : Type) where
  vector : V
  payload : PointPayload
deriving Repr, DecidableEq

/-- The vector index, keyed by document id. -/
def VectorIndex (V : Type) : Type := String → Option (Point V)

/-- One entry of the Redis change-event stream as read by the worker:
each field comes from `payload.get`, so absent fields are `none`. -/
structure ChangeEvent where
  collection : Option String := none
  document_id : Option String := none
  action : Option String := none
  status : Option String := none
deriving Repr, DecidableEq

/-- `EmbeddingWorker._delete_point` (embedding_worker.py lines 123-129):
remove the point stored under the document id. -/
def deletePoint {V : Type} (index : VectorIndex V) (document_id : String) :
    VectorIndex V :=
  fun k => if k = document_id then none else index k

/-- A Qdrant upsert of a single point under the document id. -/
def upsertPoint {V : Type} (index : VectorIndex V) (document_id : String)
    (pt : Point V) : VectorIndex V :=
  fun k => if k = document_id then some pt else index k

/-- The text embedded for a rule (embedding_worker.py line 103):
name and description joined by a newline, absent keys defaulting to the
empty string. -/
def ruleText (rule : RuleDoc) : String :=
  rule.name.getD "" ++ "\n" ++ rule.description.getD ""

/-- The point `_process` builds for a live rule (embedding_worker.py
lines 104-115). -/
def rulePoint {V : Type} (embed : String → V) (document_id : String)
    (rule : RuleDoc) : Point V :=
  { vector := embed (ruleText rule)
    payload :=
      { rule_id := document_id, name := rule.name,
        description := rule.description, slug := rule.slug,
        difficulty := rule.difficulty } }

/-- `EmbeddingWorker._process` (embedding_worker.py lines 84-121) as a
transformer of the vector index, given the authoritative `rules`
collection and the (deterministic) embedder. Events whose collection is
not `rules` or whose document id is falsy are ignored; a `deleted` action
or a `deprecated` event status deletes the point; otherwise the rule is
re-fetched — a missing or deprecated rule deletes the point, a live rule
is re-embedded and upserted. -/
def processEvent {V : Type} (rules : String → Option RuleDoc)
    (embed : String → V) (index : VectorIndex V) (ev : ChangeEvent) :
    VectorIndex V :=
  match ev.document_id with
  | none => index
  | some document_id =>
    if ev.collection = some "rules" ∧ document_id ≠ "" then
      if ev.action = some "deleted" ∨ ev.status = some "deprecated" then
        deletePoint index document_id
      else
        match rules document_id with
        | none => deletePoint index document_id
        | some rule =>
          if rule.status = some "deprecated" then deletePoint index document_id
          else upsertPoint index document_id (rulePoint embed document_id rule)
    else index

/-- Counterexample to claim C6 as stated: an event with action `deleted`
whose collection is not `rules` is ignored, so the index entry for its
document id survives. -/
theorem delete_event_removal_counterexample :
    ¬ (∀ (rules : String → Option RuleDoc) (embed : String → Unit)
          (index : VectorIndex Unit) (ev : ChangeEvent)
          (document_id : String),
        ev.document_id = some document_id →
        (ev.action = some "deleted" ∨ ev.status = some "deprecated") →
        processEvent rules embed index ev document_id = none) := by
  intro h
  have h2 := h (fun _ => none) (fun _ => ())
    (fun k =>
      if k = "d1" then
        some { vector := ()
               payload :=
                 { rule_id := "d1", name := none, description := none,
                   slug := none, difficulty := none } }
      else none)
    { collection := some "tasks", document_id := some "d1",
      action := some "deleted" }
    "d1" rfl (Or.inl rfl)
  simp [processEvent] at h2

/-- Claim C6 (amended). First conjunct: processing any change event twice
against the same corpus state leaves the index exactly as processing it
once. Second conjunct: an event targeting the `rules` collection with a
nonempty document id whose action is `deleted` or whose status is
`deprecated` removes the index entry for that id regardless of the
index's prior state. -/
theorem process_event_idempotent_and_deletes :
    (∀ {V : Type} (rules : String → Option RuleDoc) (embed : String → V)
        (index : VectorIndex V) (ev : ChangeEvent),
      processEvent rules embed (processEvent rules embed index ev) ev =
        processEvent rules embed index ev) ∧
    (∀ {V : Type} (rules : String → Option RuleDoc) (embed : String → V)
        (index : VectorIndex V) (ev : ChangeEvent) (document_id : String),
      ev.collection = some "rules" →
      ev.document_id = some document_id →
      document_id ≠ "" →
      (ev.action = some "deleted" ∨ ev.status = some "deprecated") →
      processEvent rules embed index ev document_id = none) := by
  constructor
  · intro V rules embed index ev
    unfold processEvent
    cases hd : ev.document_id with
    | none => rfl
    | some document_id =>
      try simp only []
      by_cases hcol : ev.collection = some "rules" ∧ document_id ≠ ""
      · rw [if_pos hcol, if_pos hcol]
        by_cases hdel : ev.action = some "deleted" ∨ ev.status = some "deprecated"
        · rw [if_pos hdel, if_pos hdel]
          funext k
          by_cases hk : k = document_id <;> simp [deletePoint, hk]
        · rw [if_neg hdel, if_neg hdel]
          cases hrule : rules document_id with
          | none =>
            try simp only []
            funext k
            by_cases hk : k = document_id <;> simp [deletePoint, hk]
          | some rule =>
            try simp only []
            by_cases hdep : rule.status = some "deprecated"
            · rw [if_pos hdep, if_pos hdep]
              funext k
              by_cases hk : k = document_id <;> simp [deletePoint, hk]
            · rw [if_neg hdep, if_neg hdep]
              funext k
              by_cases hk : k = document_id <;> simp [upsertPoint, hk]
      · rw [if_neg hcol, if_neg hcol]
  · intro V rules embed index ev document_id hcol hd hne hdel
    unfold processEvent
    rw [hd]
    try simp only []
    rw [if_pos (And.intro hcol hne), if_pos hdel]
    simp [deletePoint]

/-- Witness for the amended C6: a concrete deprecate event against the
rules collection removes the point, applying both conjuncts of the
theorem. -/
theorem process_event_idempotent_and_deletes_witness :
    processEvent (fun _ => none) (fun _ => ())
        (processEvent (fun _ => none) (fun _ => ())
          (fun _ => (none : Option (Point Unit)))
          { collection := some "rules", document_id := some "d1",
            status := some "deprecated" })
        { collection := some "rules", document_id := some "d1",
          status := some "deprecated" } =
      processEvent (fun _ => none) (fun _ => ())
        (fun _ => (none : Option (Point Unit)))
        { collection := some "rules", document_id := some "d1",
          status := some "deprecated" } ∧
    processEvent (fun _ => none) (fun _ => ())
        (fun k =>
          if k = "d1" then
            some { vector := ()
                   payload :=
                     { rule_id := "d1", name := none, description := none,
                       slug := none, difficulty := none } }
          else none)
        { collection := some "rules", document_id := some "d1",
          status := some "deprecated" } "d1" = none :=
  ⟨process_event_idempotent_and_deletes.left (fun _ => none) (fun _ => ())
      (fun _ => (none : Option (Point Unit)))
      { collection := some "rules", document_id := some "d1",
        status := some "deprecated" },
    process_event_idempotent_and_deletes.right (fun _ => none) (fun _ => ())
      (fun k =>
        if k = "d1" then
          some { vector := ()
                 payload :=
                   { rule_id := "d1", name := none, description := none,
                     slug := none, difficulty := none } }
        else none)
      { collection := some "rules", document_id := some "d1",
        status := some "deprecated" }
      "d1" rfl rfl (by decide) (Or.inr rfl)⟩

/-- The per-route entry of `CircuitBreakerMiddleware._state`
(middleware.py line 58): a failure counter and an open-until timestamp.
`setdefault` creates the entry as zero failures and open-until zero. -/
structure CircuitState where
  failures : Nat
  open_until : Nat
deriving Repr, DecidableEq

/-- The downstream outcome `call_next` produces: a response with a status
code, or a raised exception. -/
inductive Downstream where
  | response (status : Nat)
  | failure
deriving Repr, DecidableEq

/-- What the middleware returns for one request: the 503 rejection while
open (carrying the advertised retry time), the downstream response passed
through, or the re-raised downstream exception. Only `passed` and
`raised` involve invoking the downstream handler. -/
inductive CBOutcome where
  | rejectedOpen (retry_at : Nat)
  | passed (status : Nat)
  | raised
deriving Repr, DecidableEq

/-- `CircuitBreakerMiddleware._record_failure` (middleware.py lines
81-85): increment the counter; at the threshold, reset it and open the
circuit until `nowFail` plus the recovery window. -/
def recordFailure (threshold recovery nowFail : Nat) (st : CircuitState) :
    CircuitState :=
  let f := st.failures + 1
  if threshold ≤ f then { failures := 0, open_until := nowFail + recovery }
  else { failures := f, open_until := st.open_until }

/-- `CircuitBreakerMiddleware.dispatch` (middleware.py lines 54-79) for
one request on one route key. `now` is the clock reading at the open
check, `nowFail` the (later) reading inside `_record_failure`. While
`open_until > now` the request is rejected without reaching downstream;
otherwise the downstream result is passed through, a server error or a
raised exception records a failure, and any other response resets the
counter. -/
def cbDispatch (threshold recovery now nowFail : Nat) (st : CircuitState)
    (d : Downstream) : CBOutcome × CircuitState :=
  if now < st.open_until then (CBOutcome.rejectedOpen st.open_until, st)
  else
    match d with
    | Downstream.response s =>
        if 500 ≤ s then
          (CBOutcome.passed s, recordFailure threshold recovery nowFail st)
        else
          (CBOutcome.passed s, { failures := 0, open_until := st.open_until })
    | Downstream.failure =>
        (CBOutcome.raised, recordFailure threshold recovery nowFail st)

/-- A run of consecutive server-error responses through the breaker, each
given its pair of clock readings. -/
def serveErrors (threshold recovery : Nat) :
    List (Nat × Nat) → CircuitState → CircuitState
  | [], st => st
  | t :: ts, st =>
      serveErrors threshold recovery ts
        (cbDispatch threshold recovery t.fst t.snd st
          (Downstream.response 500)).snd

/-- Helper for C7: fewer consecutive server errors than the threshold
leave the circuit closed, only counting. -/
theorem serveErrors_below_threshold (threshold recovery : Nat)
    (ts : List (Nat × Nat)) (k : Nat) (h : k + ts.length < threshold) :
    serveErrors threshold recovery ts { failures := k, open_until := 0 } =
      { failures := k + ts.length, open_until := 0 } := by
  induction ts generalizing k with
  | nil => simp [serveErrors]
  | cons t ts ih =>
    simp only [List.length_cons] at h ⊢
    have hk1 : ¬ threshold ≤ k + 1 := by
      omega
    have hstep :
        (cbDispatch threshold recovery t.fst t.snd
            { failures := k, open_until := 0 }
            (Downstream.response 500)).snd =
          { failures := k + 1, open_until := 0 } := by
      simp [cbDispatch, recordFailure, hk1]
    rw [serveErrors, hstep, ih (k + 1) (by omega)]
    congr 1
    omega

/-- Claim C7: circuit breaker state machine. For a positive threshold N:
any run of fewer than N consecutive server errors from the fresh closed
state only counts (the circuit stays closed, open-until stays 0); the
N-th consecutive server error opens the circuit, resetting the counter
and setting open-until to the failure time plus the recovery window;
while `open_until > now` every call is rejected with the 503 outcome and
an unchanged state, never reaching downstream; once `open_until ≤ now`,
a response below 500 passes through and resets the failure counter to
zero. -/
theorem circuit_breaker_state_machine (threshold recovery : Nat)
    (hth : 1 ≤ threshold) :
    (∀ ts : List (Nat × Nat), ts.length < threshold →
      serveErrors threshold recovery ts { failures := 0, open_until := 0 } =
        { failures := ts.length, open_until := 0 }) ∧
    (∀ now nowFail : Nat,
      cbDispatch threshold recovery now nowFail
          { failures := threshold - 1, open_until := 0 }
          (Downstream.response 500) =
        (CBOutcome.passed 500,
          { failures := 0, open_until := nowFail + recovery })) ∧
    (∀ (st : CircuitState) (now nowFail : Nat) (d : Downstream),
      now < st.open_until →
      cbDispatch threshold recovery now nowFail st d =
        (CBOutcome.rejectedOpen st.open_until, st)) ∧
    (∀ (st : CircuitState) (now nowFail s : Nat),
      st.open_until ≤ now → s < 500 →
      cbDispatch threshold recovery now nowFail st (Downstream.response s) =
        (CBOutcome.passed s, { failures := 0, open_until := st.open_until })) := by
  refine ⟨?_, ?_, ?_, ?_⟩
  · intro ts hts
    simpa using serveErrors_below_threshold threshold recovery ts 0 (by omega)
  · intro now nowFail
    have hopen : threshold ≤ threshold - 1 + 1 := by
      omega
    simp [cbDispatch, recordFailure, hopen]
  · intro st now nowFail d hopen
    simp [cbDispatch, hopen]
  · intro st now nowFail s hclosed hs
    have h1 : ¬ now < st.open_until := by
      omega
    have h2 : ¬ 500 ≤ s := by
      omega
    simp [cbDispatch, h1, h2]

/-- Witness for C7 with the default threshold 5 and recovery window 30:
four errors keep the circuit closed, the fifth opens it, an open circuit
rejects, and after the window a 200 response resets the counter. -/
theorem circuit_breaker_state_machine_witness :
    (serveErrors 5 30 [(0, 0), (1, 1), (2, 2), (3, 3)]
        { failures := 0, open_until := 0 } =
      { failures := 4, open_until := 0 }) ∧
    (cbDispatch 5 30 10 10 { failures := 4, open_until := 0 }
        (Downstream.response 500) =
      (CBOutcome.passed 500, { failures := 0, open_until := 40 })) ∧
    (cbDispatch 5 30 20 20 { failures := 0, open_until := 40 }
        (Downstream.response 200) =
      (CBOutcome.rejectedOpen 40, { failures := 0, open_until := 40 })) ∧
    (cbDispatch 5 30 50 50 { failures := 0, open_until := 40 }
        (Downstream.response 200) =
      (CBOutcome.passed 200, { failures := 0, open_until := 40 })) := by
  have h := circuit_breaker_state_machine 5 30 (by decide)
  exact ⟨h.1 [(0, 0), (1, 1), (2, 2), (3, 3)] (by decide),
    h.2.1 10 10,
    h.2.2.1 { failures := 0, open_until := 40 } 20 20
      (Downstream.response 200) (by decide),
    h.2.2.2 { failures := 0, open_until := 40 } 50 50 200
      (by decide) (by decide)⟩

/-- The Redis state behind one `ratelimit:<client>` key: the request
counter and its expiry time. `INCR` on a fresh key creates the counter
without a TTL; the middleware then calls `EXPIRE` on the first increment
of a window. Keys for distinct clients are independent, so one key is
modelled. -/
structure RLEntry where
  count : Nat
  expireAt : Option Nat
deriving Repr, DecidableEq

/-- The value Redis sees under the key at time `now`: an entry whose
expiry has passed no longer exists. -/
def rlCurrent (st : Option RLEntry) (now : Nat) : Option RLEntry :=
  match st with
  | none => none
  | some entry =>
    match entry.expireAt with
    | none => some entry
    | some t => if t ≤ now then none else some entry

/-- What the rate limiter returns for one request: the downstream
response, or the 429 rejection issued without calling downstream. -/
inductive RLOutcome where
  | passed
  | tooManyRequests
deriving Repr, DecidableEq

/-- The outcome `RateLimitMiddleware.dispatch` chooses for a given
post-increment counter value (middleware.py line 32: reject when
`count > limit`). -/
def rlOut (limit count : Nat) : RLOutcome :=
  if limit < count then RLOutcome.tooManyRequests else RLOutcome.passed

/-- `RateLimitMiddleware.dispatch` (middleware.py lines 23-37) for one
client key: `INCR` the counter (starting from 0 on a missing or expired
key and keeping the existing TTL otherwise), set the expiry to `now`
plus the window iff the incremented count is 1, and reject with a 429
when the count exceeds the limit, without calling downstream. -/
def rlDispatch (limit window : Nat) (st : Option RLEntry) (now : Nat) :
    RLOutcome × Option RLEntry :=
  let cur := rlCurrent st now
  let count := (match cur with | some entry => entry.count | none => 0) + 1
  let afterIncr : RLEntry :=
    { count := count
      expireAt := match cur with | some entry => entry.expireAt | none => none }
  let entry : RLEntry :=
    if count = 1 then { afterIncr with expireAt := some (now + window) }
    else afterIncr
  if limit < count then (RLOutcome.tooManyRequests, some entry)
  else (RLOutcome.passed, some entry)

/-- A sequence of requests on one client key, threading the Redis
state. -/
def rlRun (limit window : Nat) :
    List Nat → Option RLEntry → List RLOutcome × Option RLEntry
  | [], st => ([], st)
  | t :: ts, st =>
      let step := rlDispatch limit window st t
      let rest := rlRun limit window ts step.snd
      (step.fst :: rest.fst, rest.snd)

/-- Helper for C8: requests arriving while the key is live (before its
expiry) just increment the counter; the i-th of them sees count
`k + 1 + i` and is judged by `rlOut`. -/
theorem rlRun_live_window (limit window e : Nat) (ts : List Nat) (k : Nat)
    (hk : 1 ≤ k) (hts : ∀ t ∈ ts, t < e) :
    rlRun limit window ts (some { count := k, expireAt := some e }) =
      ((List.range' (k + 1) ts.length).map (rlOut limit),
        some { count := k + ts.length, expireAt := some e }) := by
  induction ts generalizing k with
  | nil => simp [rlRun]
  | cons t ts ih =>
    have hne : ¬ e ≤ t := by
      have := hts t (by simp)
      omega
    have hk1 : ¬ (k + 1 = 1) := by
      omega
    have hstep :
        rlDispatch limit window (some { count := k, expireAt := some e }) t =
          (rlOut limit (k + 1),
            some { count := k + 1, expireAt := some e }) := by
      by_cases hc : limit < k + 1 <;>
        simp [rlDispatch, rlCurrent, rlOut, hne, hk1, hc]
    have hrest := ih (k + 1) (by omega) (fun t ht => hts t (by simp [ht]))
    simp only [rlRun, hstep, hrest, List.length_cons, List.range'_succ,
      List.map_cons]
    have hcount : k + 1 + ts.length = k + (ts.length + 1) := by
      omega
    rw [hcount]

/-- Claim C8: rate limiter. For one client key: a window-load of requests
starting from the empty key — the first at `t1`, the rest before the
expiry `t1 + window` — yields the counter values 1, 2, … judged by
`rlOut`, so exactly the first `limit` requests pass downstream and every
later one in the window is rejected with the 429 outcome without a
downstream call; and any request arriving at or after the expiry sees a
fresh key, whose counter restarts at 1, and passes. -/
theorem rate_limiter_window (limit window t1 : Nat) (ts : List Nat)
    (hts : ∀ t ∈ ts, t < t1 + window) (hlim : 1 ≤ limit) :
    (rlRun limit window (t1 :: ts) none =
      ((List.range' 1 (ts.length + 1)).map (rlOut limit),
        some { count := ts.length + 1, expireAt := some (t1 + window) })) ∧
    (∀ c : Nat, (c ≤ limit → rlOut limit c = RLOutcome.passed) ∧
      (limit < c → rlOut limit c = RLOutcome.tooManyRequests)) ∧
    (∀ (k e now2 : Nat), e ≤ now2 →
      rlDispatch limit window (some { count := k, expireAt := some e })
          now2 =
        (RLOutcome.passed,
          some { count := 1, expireAt := some (now2 + window) })) := by
  refine ⟨?_, ?_, ?_⟩
  · have h1 : rlDispatch limit window none t1 =
        (rlOut limit 1,
          some { count := 1, expireAt := some (t1 + window) }) := by
      by_cases hc : limit < 1 <;> simp [rlDispatch, rlCurrent, rlOut, hc]
    have hrest := rlRun_live_window limit window (t1 + window) ts 1
      (by omega) hts
    simp only [rlRun, h1, hrest, List.length_cons, List.range'_succ,
      List.map_cons]
    rw [Nat.add_comm 1 ts.length]
  · intro c
    constructor
    · intro hc
      have : ¬ limit < c := by
        omega
      simp [rlOut, this]
    · intro hc
      simp [rlOut, hc]
  · intro k e now2 hexp
    have hpass : ¬ limit < 1 := by
      omega
    simp [rlDispatch, rlCurrent, rlOut, hexp, hpass]

/-- Witness for C8 with limit 2, window 10: three requests in one window
pass, pass, reject; a request after the expiry passes with the counter
restarted. -/
theorem rate_limiter_window_witness :
    (rlRun 2 10 [0, 1, 2] none =
      ([RLOutcome.passed, RLOutcome.passed, RLOutcome.tooManyRequests],
        some { count := 3, expireAt := some 10 })) ∧
    (rlDispatch 2 10 (some { count := 3, expireAt := some 10 }) 11 =
      (RLOutcome.passed, some { count := 1, expireAt := some 21 })) := by
  have h := rate_limiter_window 2 10 0 [1, 2] (by decide) (by decide)
  refine ⟨?_, h.2.2 3 10 11 (by decide)⟩
  have h1 := h.1
  simpa [List.range', rlOut] using h1

/-- Python truthiness for an optional string: `None` and the empty string
are falsy. -/
def pyTruthy : Option String → Bool
  | none => false
  | some s => s ≠ ""

/-- Python `a or b` on optional strings: the left value when truthy,
otherwise the right value (even when that one is falsy). -/
def pyOr (a b : Option String) : Option String :=
  if pyTruthy a then a else b

/-- Python f-string interpolation of an optional value: `None` renders as
the string "None". -/
def pyStr : Option String → String
  | none => "None"
  | some s => s

/-- The payload fields of a Qdrant search hit that `_search_rules` reads
(rag.py lines 100-109); all come from `payload.get`. -/
structure HitPayload where
  rule_id : Option String := none
  name : Option String := none
  slug : Option String := none
  description : Option String := none
  summary : Option String := none
deriving Repr, DecidableEq

/-- A Qdrant search hit; `hit.payload or ` an empty dict means a missing
payload behaves as one with every field absent. -/
structure Hit where
  payload : Option HitPayload := none
deriving Repr, DecidableEq

/-- The rule id appended to `refs` for a hit (rag.py lines 103-104):
present only when `payload.get("rule_id")` is truthy. -/
def hitRef (h : Hit) : Option String :=
  let p := h.payload.getD {}
  if pyTruthy p.rule_id then p.rule_id else none

/-- The context chunk appended for a hit (rag.py lines 105-109): the
description falls back to the summary via Python `or`; when the result is
truthy, the line is the name, else slug, else rule id, then a colon, then
the description. -/
def hitChunk (h : Hit) : Option String :=
  let p := h.payload.getD {}
  let description := pyOr p.description p.summary
  if pyTruthy description then
    some (pyStr (pyOr p.name (pyOr p.slug p.rule_id)) ++ ": " ++
      pyStr description)
  else none

/-- The local rule refs used by the fallback branches of `_search_rules`
(rag.py lines 95 and 112): the template's rule id list, empty when the
task has no template. -/
def localRefs (template : Option TemplateDoc) : List String :=
  match template with
  | none => []
  | some tpl => tpl.rule_ids

/-- `RAGPipeline._local_rule_context` (rag.py lines 117-128): fetch the
template's rules from Mongo and render a name-colon-description line for
each found document. The store's retrieval order is modelled as the query
id order. -/
def localRuleContext (rulesCol : String → Option RuleDoc)
    (template : Option TemplateDoc) : List String :=
  match template with
  | none => []
  | some tpl =>
    if tpl.rule_ids = [] then []
    else
      tpl.rule_ids.filterMap fun id =>
        (rulesCol id).map fun rule =>
          rule.name.getD id ++ ": " ++
            rule.description.getD "нет описания"

/-- `RAGPipeline._search_rules` (rag.py lines 82-115), given the outcome
of the embedding-plus-Qdrant search (an exception or a hit list). On
search failure, both chunks and refs come from the template association;
on success, chunks and refs are gathered from the hits, and when no hit
yielded a textual description the local context is used with
`local_refs or refs` as the refs. -/
def searchRules (rulesCol : String → Option RuleDoc)
    (searchOutcome : Except Unit (List Hit))
    (template : Option TemplateDoc) : List String × List String :=
  match searchOutcome with
  | Except.error _ =>
      (localRuleContext rulesCol template, localRefs template)
  | Except.ok hits =>
      let chunks := hits.filterMap hitChunk
      let refs := hits.filterMap hitRef
      if chunks = [] then
        (localRuleContext rulesCol template,
          if localRefs template = [] then refs else localRefs template)
      else (chunks, refs)

/-- A search hit carrying only a rule id: no description, no summary. -/
def hitWithoutDescription : Hit :=
  { payload := some { rule_id := some "r1" } }

/-- A search hit carrying a rule id and a description. -/
def hitWithDescription : Hit :=
  { payload := some { rule_id := some "r1", description := some "d" } }

/-- Counterexample to claim C9 as stated: a hit carrying a rule id but no
description, for a task without a template, produces no chunks, yet the
returned refs are the index-hit refs, not the (empty) local template
association. -/
theorem search_rules_empty_local_counterexample :
    ¬ (∀ (rulesCol : String → Option RuleDoc) (hits : List Hit)
          (template : Option TemplateDoc),
        hits.filterMap hitChunk = [] →
        (searchRules rulesCol (Except.ok hits) template).snd =
          localRefs template) := by
  intro h
  have h2 := h (fun _ => none) [hitWithoutDescription] none (by decide)
  simp [searchRules, localRefs, hitWithoutDescription, hitChunk, hitRef,
    pyTruthy, pyOr] at h2

/-- Claim C9 (amended): the returned rule refs favor index hits — when at
least one hit yields a textual description, the refs are exactly the
truthy rule ids of the hits; when no hit yields a description, the refs
are the template's rule id list if it is nonempty, and otherwise fall
back to the index-hit rule ids. -/
theorem search_rules_ref_selection (rulesCol : String → Option RuleDoc)
    (hits : List Hit) (template : Option TemplateDoc) :
    (hits.filterMap hitChunk ≠ [] →
      (searchRules rulesCol (Except.ok hits) template).snd =
        hits.filterMap hitRef) ∧
    (hits.filterMap hitChunk = [] → localRefs template ≠ [] →
      (searchRules rulesCol (Except.ok hits) template).snd =
        localRefs template) ∧
    (hits.filterMap hitChunk = [] → localRefs template = [] →
      (searchRules rulesCol (Except.ok hits) template).snd =
        hits.filterMap hitRef) := by
  refine ⟨?_, ?_, ?_⟩
  · intro hchunks
    simp [searchRules, hchunks]
  · intro hchunks hlocal
    simp [searchRules, hchunks, hlocal]
  · intro hchunks hlocal
    simp [searchRules, hchunks, hlocal]

/-- Witness for the amended C9: one hit with a description keeps the
index refs; a descriptionless hit with a nonempty template association
switches to the template's rule ids. -/
theorem search_rules_ref_selection_witness :
    ((searchRules (fun _ => none) (Except.ok [hitWithDescription])
        (some { rule_ids := ["t1"] })).snd = ["r1"]) ∧
    ((searchRules (fun _ => none) (Except.ok [hitWithoutDescription])
        (some { rule_ids := ["t1"] })).snd = ["t1"]) := by
  constructor
  · have h := (search_rules_ref_selection (fun _ => none)
      [hitWithDescription] (some { rule_ids := ["t1"] })).left (by decide)
    rw [h]
    decide
  · have h := ((search_rules_ref_selection (fun _ => none)
      [hitWithoutDescription]
      (some { rule_ids := ["t1"] })).right).left (by decide) (by decide)
    rw [h]
    decide

end ExplanationService
